import Mathlib

/-!
Verification of `use-scroll-restoration` (Next.js Pages Router scroll
restoration) against its natural-language specification.

The development shallowly embeds the two source files:
* the TypeScript variant (`saveScrollPos`, `restoreScrollPos`,
  `deleteScrollPos`, `useScrollRestoration`), and
* the plain JavaScript variant (namespace `JsVariant`), which differs in
  `saveScrollPos` by not guarding the `querySelector` result.

Browser ambient state (sessionStorage, window scroll offset, DOM elements
reachable by selector, `window.history.state.key`) is modelled as an explicit
`Env` record; the React hook's state (`key` from `useState`, the attached
listeners, the pending `setTimeout` callbacks) as a `HookState` record.
JavaScript exceptions are modelled with `Except Unit`.
-/

/-- A scroll offset pair `{ x, y }`.  Offsets are the non-negative
integer-valued scroll coordinates (`window.scrollX`/`scrollY`,
`element.scrollLeft`/`scrollTop`). -/
structure ScrollPosition where
  x : Nat
  y : Nat
deriving DecidableEq, Repr

/-- The character for the decimal digit `d` (`d < 10`). -/
def digitChar (d : Nat) : Char := Char.ofNat (48 + d)

/-- Numeric value of a decimal digit character. -/
def digitVal (c : Char) : Nat := c.toNat - 48

/-- Is `c` one of `'0'..'9'`? -/
def isDigit (c : Char) : Bool := 48 ≤ c.toNat && c.toNat ≤ 57

/-- Little-endian decimal digits of `n`, with explicit fuel (the fuel makes
the recursion structural; `fuel = n + 1` always suffices). -/
def natToRevDigits : Nat → Nat → List Char
  | 0, _ => []
  | fuel + 1, n =>
    if n < 10 then [digitChar n]
    else digitChar (n % 10) :: natToRevDigits fuel (n / 10)

/-- Big-endian decimal digit string of `n`, as `JSON.stringify` prints a
non-negative integer-valued number. -/
def natToDigits (n : Nat) : List Char := (natToRevDigits (n + 1) n).reverse

/-- Numeric value of a big-endian decimal digit list. -/
def digitsToNat (ds : List Char) : Nat := ds.foldl (fun a c => a * 10 + digitVal c) 0

/-- The characters `{"x":` opening the JSON object `JSON.stringify` emits. -/
def xTag : List Char := ['\x7b', '"', 'x', '"', ':']

/-- The characters `,"y":` between the two fields. -/
def yTag : List Char := [',', '"', 'y', '"', ':']

/-- The closing brace of the JSON object. -/
def closeTag : List Char := ['\x7d']

/-- `JSON.stringify({ x, y })` for a `ScrollPosition`: the exact text
`{"x":<x>,"y":<y>}`. -/
def serializeScrollPos (p : ScrollPosition) : String :=
  String.mk (xTag ++ natToDigits p.x ++ yTag ++ natToDigits p.y ++ closeTag)

/-- Consume the exact tag `ts` from the front of `cs`, or fail. -/
def stripTag : List Char → List Char → Option (List Char)
  | [], cs => some cs
  | _ :: _, [] => none
  | t :: ts, c :: cs => if c = t then stripTag ts cs else none

/-- Split `cs` into its longest digit-character prefix and the rest. -/
def takeDigits : List Char → List Char × List Char
  | [] => ([], [])
  | c :: cs =>
    if isDigit c then
      let r := takeDigits cs
      (c :: r.1, r.2)
    else ([], c :: cs)

/-- Model of `JSON.parse` restricted to the shape this program stores:
`{"x":<digits>,"y":<digits>}`.  Returns `none` where `JSON.parse` would
throw a `SyntaxError` (any string not of that shape). -/
def parseScrollPosChars (cs : List Char) : Option ScrollPosition :=
  match stripTag xTag cs with
  | none => none
  | some cs1 =>
    let rx := takeDigits cs1
    if rx.1 = [] then none
    else
      match stripTag yTag rx.2 with
      | none => none
      | some cs2 =>
        let ry := takeDigits cs2
        if ry.1 = [] then none
        else if ry.2 = closeTag then some ⟨digitsToNat rx.1, digitsToNat ry.1⟩
        else none

/-- String-level `JSON.parse` model. -/
def parseScrollPos (s : String) : Option ScrollPosition := parseScrollPosChars s.data

/-- `sessionStorage`: a string-keyed mapping to stored strings. -/
def Storage : Type := String → Option String

/-- Storage with no entries. -/
def Storage.empty : Storage := fun _ => none

/-- `sessionStorage.setItem(k, v)`: overwrite the entry at `k`. -/
def Storage.setItem (st : Storage) (k v : String) : Storage :=
  fun k2 => if k2 = k then some v else st k2

/-- `sessionStorage.getItem(k)`. -/
def Storage.getItem (st : Storage) (k : String) : Option String := st k

/-- `sessionStorage.removeItem(k)`. -/
def Storage.removeItem (st : Storage) (k : String) : Storage :=
  fun k2 => if k2 = k then none else st k2

/-- The ambient browser state the source reads and writes:
`sessionStorage`, the window scroll offset, the scroll offsets of the
elements `document.querySelector` can resolve (indexed by selector, `none`
when the selector matches no element), and `window.history.state.key`. -/
structure Env where
  storage : Storage
  window : ScrollPosition
  elements : String → Option ScrollPosition
  historyKey : String

/-- `element.scrollTo(p.x, p.y)` for the element resolved by `sel`. -/
def Env.scrollElement (env : Env) (sel : String) (p : ScrollPosition) : Env :=
  { env with elements := fun s => if s = sel then some p else env.elements s }

/-- Shared tail of both save variants:
`sessionStorage.setItem(`scrollPos:${key}`, JSON.stringify(scrollPos))`. -/
def writeScrollEntry (env : Env) (key : String) (p : ScrollPosition) : Env :=
  { env with storage := env.storage.setItem ("scrollPos:" ++ key) (serializeScrollPos p) }

/-- TypeScript `saveScrollPos(key, selector?)`: start from the window offset;
if the selector is truthy and resolves to an element, use that element's
offset instead; store the result under `scrollPos:<key>`.
(JavaScript truthiness: `undefined` and `""` are falsy, modelled by
`none` and `some ""`.) -/
def saveScrollPos (env : Env) (key : String) (selector : Option String) : Env :=
  let scrollPos := env.window
  let scrollPos :=
    match selector with
    | some sel =>
      if sel = "" then scrollPos
      else
        match env.elements sel with
        | some elemPos => elemPos
        | none => scrollPos
    | none => scrollPos
  writeScrollEntry env key scrollPos

/-- The scroll applied at the end of `restoreScrollPos`: if the selector is
truthy, scroll the element it resolves to — and do nothing when it resolves
to no element; otherwise scroll the window. -/
def applyScroll (env : Env) (selector : Option String) (p : ScrollPosition) : Env :=
  match selector with
  | some sel =>
    if sel = "" then { env with window := p }
    else
      match env.elements sel with
      | some _ => env.scrollElement sel p
      | none => env
  | none => { env with window := p }

/-- TypeScript `restoreScrollPos(key, selector?)`: read the stored entry;
a null (absent) or falsy (empty) entry yields `{x:0,y:0}`; otherwise
`JSON.parse` the entry — a parse failure throws (`Except.error`).  Then
apply the offset per `applyScroll`. -/
def restoreScrollPos (env : Env) (key : String) (selector : Option String) :
    Except Unit Env :=
  match env.storage.getItem ("scrollPos:" ++ key) with
  | some j =>
    if j = "" then Except.ok (applyScroll env selector ⟨0, 0⟩)
    else
      match parseScrollPos j with
      | some p => Except.ok (applyScroll env selector p)
      | none => Except.error ()
  | none => Except.ok (applyScroll env selector ⟨0, 0⟩)

/-- `deleteScrollPos(key)`: remove the entry under `scrollPos:<key>`. -/
def deleteScrollPos (env : Env) (key : String) : Env :=
  { env with storage := env.storage.removeItem ("scrollPos:" ++ key) }

namespace JsVariant

/-- JavaScript-variant `saveScrollPos(key, selector)`: unlike the TypeScript
variant it does not guard the `querySelector` result, so when a truthy
selector resolves to no element, `element.scrollLeft` dereferences `null`
and throws a `TypeError` (`Except.error`). -/
def saveScrollPos (env : Env) (key : String) (selector : Option String) :
    Except Unit Env :=
  match selector with
  | some sel =>
    if sel = "" then Except.ok (writeScrollEntry env key env.window)
    else
      match env.elements sel with
      | some elemPos => Except.ok (writeScrollEntry env key elemPos)
      | none => Except.error ()
  | none => Except.ok (writeScrollEntry env key env.window)

end JsVariant

/-- A pending `setTimeout` callback scheduled by `onRouteChangeComplete`.
The closure captures only `selector` (and the delay); the navigation key is
*not* captured — the callback reads `window.history.state.key` when it
fires. -/
structure Timer where
  selector : Option String
  delay : Nat
deriving DecidableEq, Repr

/-- The hook's own state: the React `key` state (`useState("")`), whether the
three listeners of the effect are attached, and the pending timers.  The
effect cleanup detaches the listeners; the source contains no
`clearTimeout`, so cleanup leaves `timers` untouched. -/
structure HookState where
  key : String
  listenersAttached : Bool
  timers : List Timer
deriving DecidableEq, Repr

/-- The mount effect `useEffect(() => setKey(window.history.state.key), [])`. -/
def initKey (st : HookState) (env : Env) : HookState :=
  { st with key := env.historyKey }

/-- `onBeforeUnload`: delete the entry for the captured React `key`, then the
entry for the live `window.history.state.key`.  No `setKey` call, so the
hook state is returned unchanged. -/
def onBeforeUnload (st : HookState) (env : Env) : HookState × Env :=
  let env1 := deleteScrollPos env st.key
  let env2 := deleteScrollPos env1 env1.historyKey
  (st, env2)

/-- `onRouteChangeStart`: save the outgoing page's offset under the captured
React `key`. -/
def onRouteChangeStart (selector : Option String) (st : HookState) (env : Env) :
    HookState × Env :=
  (st, saveScrollPos env st.key selector)

/-- `onRouteChangeComplete`: `setKey(window.history.state.key)`; then, when a
delay is configured (`delay != null`), schedule a timer whose callback will
read the live history key when it fires; otherwise immediately restore for
the live history key and then delete that entry (an exception from
`restoreScrollPos` propagates and skips the delete). -/
def onRouteChangeComplete (selector : Option String) (delay : Option Nat)
    (st : HookState) (env : Env) : HookState × Except Unit Env :=
  let st1 := { st with key := env.historyKey }
  match delay with
  | some d => ({ st1 with timers := st1.timers ++ [⟨selector, d⟩] }, Except.ok env)
  | none =>
    match restoreScrollPos env env.historyKey selector with
    | Except.ok env2 => (st1, Except.ok (deleteScrollPos env2 env2.historyKey))
    | Except.error e => (st1, Except.error e)

/-- Firing a scheduled timer: the callback body
`restoreScrollPos(window.history.state.key, selector); deleteScrollPos(window.history.state.key)`
evaluated against the environment current at fire time. -/
def fireTimer (t : Timer) (env : Env) : Except Unit Env :=
  match restoreScrollPos env env.historyKey t.selector with
  | Except.ok env2 => Except.ok (deleteScrollPos env2 env2.historyKey)
  | Except.error e => Except.error e

/-- The effect cleanup (teardown on disable, unmount, or dependency change):
it removes the `beforeunload`, `routeChangeStart` and `routeChangeComplete`
listeners.  It contains no `clearTimeout`, so pending timers survive. -/
def teardown (st : HookState) : HookState :=
  { st with listenersAttached := false }

/-! ### Serialization round-trip -/

theorem stripTag_append (ts cs : List Char) : stripTag ts (ts ++ cs) = some cs := by
  induction ts with
  | nil => rfl
  | cons t ts ih => simp [stripTag, ih]

theorem isDigit_digitChar {d : Nat} (hd : d < 10) : isDigit (digitChar d) = true := by
  interval_cases d <;> decide

theorem digitVal_digitChar {d : Nat} (hd : d < 10) : digitVal (digitChar d) = d := by
  interval_cases d <;> decide

theorem natToRevDigits_digits {fuel n : Nat} {c : Char}
    (hc : c ∈ natToRevDigits fuel n) : isDigit c = true := by
  induction fuel generalizing n with
  | zero => simp [natToRevDigits] at hc
  | succ fuel ih =>
    unfold natToRevDigits at hc
    by_cases h : n < 10
    · simp [h] at hc
      subst hc
      exact isDigit_digitChar h
    · simp [h] at hc
      rcases hc with hc | hc
      · subst hc
        exact isDigit_digitChar (Nat.mod_lt _ (by norm_num))
      · exact ih hc

theorem natToRevDigits_ne_nil {fuel n : Nat} (h : 0 < fuel) :
    natToRevDigits fuel n ≠ [] := by
  cases fuel with
  | zero => omega
  | succ fuel =>
    unfold natToRevDigits
    by_cases h10 : n < 10 <;> simp [h10]

theorem foldr_natToRevDigits {fuel n : Nat} (h : n < 10 ^ fuel) :
    (natToRevDigits fuel n).foldr (fun c a => a * 10 + digitVal c) 0 = n := by
  induction fuel generalizing n with
  | zero =>
    simp [natToRevDigits]
    simp at h
    omega
  | succ fuel ih =>
    unfold natToRevDigits
    by_cases h10 : n < 10
    · simp [h10, digitVal_digitChar h10]
    · have hdiv : n / 10 < 10 ^ fuel := by
        rw [Nat.div_lt_iff_lt_mul (by norm_num)]
        calc n < 10 ^ (fuel + 1) := h
          _ = 10 ^ fuel * 10 := by ring
      have hmod : n % 10 < 10 := Nat.mod_lt _ (by norm_num)
      simp [h10, ih hdiv, digitVal_digitChar hmod]
      omega

theorem digitsToNat_natToDigits (n : Nat) : digitsToNat (natToDigits n) = n := by
  unfold digitsToNat natToDigits
  rw [List.foldl_reverse]
  exact foldr_natToRevDigits
    (lt_of_lt_of_le (Nat.lt_pow_self (by norm_num) n)
      (Nat.pow_le_pow_right (by norm_num) (Nat.le_succ n)))

theorem natToDigits_digits {n : Nat} {c : Char} (hc : c ∈ natToDigits n) :
    isDigit c = true := by
  unfold natToDigits at hc
  exact natToRevDigits_digits (List.mem_reverse.mp hc)

theorem natToDigits_ne_nil (n : Nat) : natToDigits n ≠ [] := by
  unfold natToDigits
  intro h
  exact natToRevDigits_ne_nil (Nat.succ_pos n) (List.reverse_eq_nil_iff.mp h)

theorem takeDigits_append {ds rest : List Char} (hds : ∀ c ∈ ds, isDigit c = true)
    (hrest : ∀ c cs, rest = c :: cs → isDigit c = false) :
    takeDigits (ds ++ rest) = (ds, rest) := by
  induction ds with
  | nil =>
    cases rest with
    | nil => rfl
    | cons c cs => simp [takeDigits, hrest c cs rfl]
  | cons d ds ih =>
    have hd : isDigit d = true := hds d (List.mem_cons_self ..)
    simp [takeDigits, hd, ih (fun c hc => hds c (List.mem_cons_of_mem _ hc))]

theorem parseScrollPosChars_serialize (p : ScrollPosition) :
    parseScrollPosChars
      (xTag ++ natToDigits p.x ++ yTag ++ natToDigits p.y ++ closeTag) = some p := by
  have hx : takeDigits (natToDigits p.x ++ (yTag ++ (natToDigits p.y ++ closeTag))) =
      (natToDigits p.x, yTag ++ (natToDigits p.y ++ closeTag)) := by
    refine takeDigits_append (fun c hc => natToDigits_digits hc) ?_
    intro c cs h
    simp [yTag] at h
    rw [← h.1]
    decide
  have hy : takeDigits (natToDigits p.y ++ closeTag) = (natToDigits p.y, closeTag) := by
    refine takeDigits_append (fun c hc => natToDigits_digits hc) ?_
    intro c cs h
    simp [closeTag] at h
    rw [← h.1]
    decide
  simp only [List.append_assoc]
  simp [parseScrollPosChars, stripTag_append, hx, hy, natToDigits_ne_nil,
    digitsToNat_natToDigits]

theorem parseScrollPos_serialize (p : ScrollPosition) :
    parseScrollPos (serializeScrollPos p) = some p := by
  unfold parseScrollPos serializeScrollPos
  exact parseScrollPosChars_serialize p

theorem serializeScrollPos_ne_empty (p : ScrollPosition) : serializeScrollPos p ≠ "" := by
  intro h
  have h2 := congrArg String.data h
  simp [serializeScrollPos, xTag] at h2

/-! ### Storage and frame lemmas -/

theorem Storage.getItem_setItem_self (st : Storage) (k v : String) :
    (st.setItem k v).getItem k = some v := by
  simp [Storage.setItem, Storage.getItem]

theorem Storage.getItem_setItem_ne (st : Storage) {k k2 : String} (v : String)
    (h : k2 ≠ k) : (st.setItem k v).getItem k2 = st.getItem k2 := by
  simp [Storage.setItem, Storage.getItem, h]

theorem Storage.getItem_removeItem_self (st : Storage) (k : String) :
    (st.removeItem k).getItem k = none := by
  simp [Storage.removeItem, Storage.getItem]

theorem Storage.getItem_removeItem_ne (st : Storage) {k k2 : String}
    (h : k2 ≠ k) : (st.removeItem k).getItem k2 = st.getItem k2 := by
  simp [Storage.removeItem, Storage.getItem, h]

theorem scrollPosKey_inj {k k2 : String}
    (h : "scrollPos:" ++ k = "scrollPos:" ++ k2) : k = k2 := by
  have h2 := congrArg String.data h
  rw [String.data_append, String.data_append] at h2
  exact String.ext (List.append_cancel_left h2)

theorem applyScroll_storage (env : Env) (sel : Option String) (p : ScrollPosition) :
    (applyScroll env sel p).storage = env.storage ∧
    (applyScroll env sel p).historyKey = env.historyKey := by
  unfold applyScroll Env.scrollElement
  cases sel with
  | none => exact ⟨rfl, rfl⟩
  | some s =>
    by_cases hs : s = ""
    · simp [hs]
    · cases henv : env.elements s <;> simp [hs, henv]

theorem restoreScrollPos_ok {env env2 : Env} {k : String} {sel : Option String}
    (h : restoreScrollPos env k sel = Except.ok env2) :
    ∃ p, env2 = applyScroll env sel p := by
  unfold restoreScrollPos at h
  split at h
  · split at h
    · exact ⟨⟨0, 0⟩, (Except.ok.inj h).symm⟩
    · split at h
      · exact ⟨_, (Except.ok.inj h).symm⟩
      · exact absurd h (by simp)
  · exact ⟨⟨0, 0⟩, (Except.ok.inj h).symm⟩

theorem restoreScrollPos_frame {env env2 : Env} {k : String} {sel : Option String}
    (h : restoreScrollPos env k sel = Except.ok env2) :
    env2.storage = env.storage ∧ env2.historyKey = env.historyKey := by
  obtain ⟨p, rfl⟩ := restoreScrollPos_ok h
  exact applyScroll_storage env sel p

theorem restoreScrollPos_of_entry {env : Env} {k : String} (sel : Option String)
    {p : ScrollPosition}
    (hj : env.storage.getItem ("scrollPos:" ++ k) = some (serializeScrollPos p)) :
    restoreScrollPos env k sel = Except.ok (applyScroll env sel p) := by
  unfold restoreScrollPos
  rw [hj]
  simp [serializeScrollPos_ne_empty p, parseScrollPos_serialize p]

theorem saveScrollPos_elem {env : Env} {k sel : String} {p : ScrollPosition}
    (hsel : sel ≠ "") (he : env.elements sel = some p) :
    saveScrollPos env k (some sel) = writeScrollEntry env k p := by
  unfold saveScrollPos
  simp [hsel, he]

theorem saveScrollPos_noElem {env : Env} {k sel : String}
    (hsel : sel ≠ "") (he : env.elements sel = none) :
    saveScrollPos env k (some sel) = writeScrollEntry env k env.window := by
  unfold saveScrollPos
  simp [hsel, he]

theorem saveScrollPos_storage (env : Env) (k : String) (sel : Option String) :
    ∃ p, (saveScrollPos env k sel).storage =
      env.storage.setItem ("scrollPos:" ++ k) (serializeScrollPos p) :=
  ⟨_, rfl⟩

theorem writeScrollEntry_getItem (env : Env) (k : String) (p : ScrollPosition) :
    (writeScrollEntry env k p).storage.getItem ("scrollPos:" ++ k) =
      some (serializeScrollPos p) := by
  unfold writeScrollEntry
  exact Storage.getItem_setItem_self ..

theorem applyScroll_elem {env : Env} {sel : String} {q : ScrollPosition}
    (p : ScrollPosition) (hsel : sel ≠ "") (he : env.elements sel = some q) :
    (applyScroll env (some sel) p).elements sel = some p := by
  unfold applyScroll Env.scrollElement
  simp [hsel, he]

/-! ### Claim theorems -/

/-- Browser state for the delayed-restoration race: `K1` is the live history
key and a position `(0, 500)` is already stored under `K1`. -/
def envRace : Env :=
  { storage := Storage.empty.setItem ("scrollPos:" ++ "K1") (serializeScrollPos ⟨0, 500⟩)
    window := ⟨0, 120⟩
    elements := fun _ => none
    historyKey := "K1" }

/-- Hook state after mount against `envRace`. -/
def stRace : HookState := initKey ⟨"", true, []⟩ envRace

/-- First `routeChangeComplete` with `delay = 200`, establishing key `K1`. -/
def raceStep1 : HookState × Except Unit Env :=
  onRouteChangeComplete none (some 200) stRace envRace

/-- The browser then navigates again before the timer fires:
`window.history.state.key` becomes `K2`. -/
def envRace2 : Env := { envRace with historyKey := "K2" }

/-- Second `routeChangeComplete` (key `K2`), still before the timer fires. -/
def raceStep2 : HookState × Except Unit Env :=
  onRouteChangeComplete none (some 200) raceStep1.1 envRace2

/-- C1: the claim asserts the delayed restore/delete operates on the key `K1`
captured at navigation-complete time — restoring the viewport to `K1`'s
stored `(0, 500)` and deleting `K1`'s entry.  The code instead reads
`window.history.state.key` when the timer fires: with `K2` live at fire
time, the fired timer scrolls the window to the default `(0, 0)` (no entry
under `K2`), leaves `K1`'s entry `(0, 500)` in storage, and deletes the
(absent) `K2` entry.  This contradicts the spec's required ordering
guarantee and its own deletion invariant, so the code is at fault. -/
theorem delayed_restore_uses_live_key_at_fire :
    raceStep1.1.key = "K1" ∧
    raceStep1.1.timers = [⟨none, 200⟩] ∧
    raceStep2.1.key = "K2" ∧
    ∃ env2, fireTimer ⟨none, 200⟩ envRace2 = Except.ok env2 ∧
      env2.window = ⟨0, 0⟩ ∧
      env2.storage.getItem ("scrollPos:" ++ "K1") = some (serializeScrollPos ⟨0, 500⟩) ∧
      env2.storage.getItem ("scrollPos:" ++ "K2") = none :=
  ⟨by decide, by decide, by decide, _, rfl, by decide, by decide, by decide⟩

/-- Browser state with a pending delayed restoration: an entry `(0, 500)`
stored under the live key `K1`. -/
def envPend : Env :=
  { storage := Storage.empty.setItem ("scrollPos:" ++ "K1") (serializeScrollPos ⟨0, 500⟩)
    window := ⟨0, 120⟩
    elements := fun _ => none
    historyKey := "K1" }

/-- Hook state right after a `routeChangeComplete` with `delay = 200`
scheduled a timer against `envPend`. -/
def stPend : HookState :=
  (onRouteChangeComplete none (some 200) (initKey ⟨"", true, []⟩ envPend) envPend).1

/-- C2: the claim asserts that tearing the controller down before a pending
delayed restoration fires skips the restoration.  The effect cleanup in the
source removes the three listeners but contains no `clearTimeout`, so the
scheduled callback survives teardown and, when the host timer fires, still
performs the restore (window scrolled to `(0, 500)`) and the delete (entry
under `K1` removed).  The spec's cancellation requirement is the clear
intent, so the code is at fault. -/
theorem teardown_does_not_cancel_pending_timer :
    (teardown stPend).timers = [⟨none, 200⟩] ∧
    (teardown stPend).listenersAttached = false ∧
    ∃ env2, fireTimer ⟨none, 200⟩ envPend = Except.ok env2 ∧
      env2.window = ⟨0, 500⟩ ∧
      env2.storage.getItem ("scrollPos:" ++ "K1") = none :=
  ⟨by decide, by decide, _, rfl, by decide, by decide⟩

/-- Environment for the unresolved-selector restore counterexample: a
well-formed entry `(3, 4)` stored under key `k`, window at `(7, 8)`, and no
element matching any selector. -/
def envSel : Env :=
  { storage := Storage.empty.setItem ("scrollPos:" ++ "k") (serializeScrollPos ⟨3, 4⟩)
    window := ⟨7, 8⟩
    elements := fun _ => none
    historyKey := "k" }

/-- C3 counterexample: with a stored entry `(3, 4)` under `k` and the
selector `#list` matching no element, the claim says restore applies the
stored offset to the viewport; the code takes the truthy-selector branch,
finds no element, and performs no scroll at all — the environment is
returned unchanged, with the window still at `(7, 8)`. -/
theorem restore_unresolved_selector_skips_viewport_cx :
    envSel.storage.getItem ("scrollPos:" ++ "k") = some (serializeScrollPos ⟨3, 4⟩) ∧
    restoreScrollPos envSel "k" (some "#list") = Except.ok envSel ∧
    envSel.window = ⟨7, 8⟩ :=
  ⟨by decide, rfl, by decide⟩

/-- C3 amended: when a truthy selector matches no element, *save* degrades to
the viewport (it stores the window offset), but *restore* does not degrade —
it performs no scroll operation at all: whenever it returns normally it
leaves the environment (viewport included) unchanged. -/
theorem unresolved_selector_save_viewport_restore_noop (env : Env) (k sel : String)
    (hsel : sel ≠ "") (he : env.elements sel = none) :
    (saveScrollPos env k (some sel)).storage.getItem ("scrollPos:" ++ k) =
      some (serializeScrollPos env.window) ∧
    ∀ env2, restoreScrollPos env k (some sel) = Except.ok env2 → env2 = env := by
  constructor
  · rw [saveScrollPos_noElem hsel he]
    exact writeScrollEntry_getItem ..
  · intro env2 h
    obtain ⟨p, rfl⟩ := restoreScrollPos_ok h
    unfold applyScroll
    simp [hsel, he]

/-- C3 witness: the amended statement evaluated on `envSel` with selector
`#list`. -/
theorem unresolved_selector_save_viewport_restore_noop_witness :
    (saveScrollPos envSel "k" (some "#list")).storage.getItem ("scrollPos:" ++ "k") =
      some (serializeScrollPos envSel.window) ∧
    ∀ env2, restoreScrollPos envSel "k" (some "#list") = Except.ok env2 → env2 = envSel :=
  unresolved_selector_save_viewport_restore_noop envSel "k" "#list" (by decide) (by decide)

/-- Environment for the malformed-entry counterexample: the string `oops`
(not valid JSON) stored under key `k`. -/
def envBad : Env :=
  { storage := Storage.empty.setItem ("scrollPos:" ++ "k") "oops"
    window := ⟨7, 8⟩
    elements := fun _ => none
    historyKey := "k" }

/-- C4 counterexample: the entry under `k` is `oops`, which `JSON.parse`
rejects; the claim says restore treats it as absent and positions the target
at `(0, 0)`, but the code lets the parse failure propagate: restore throws
(`Except.error`) instead of returning normally. -/
theorem restore_malformed_entry_throws_cx :
    envBad.storage.getItem ("scrollPos:" ++ "k") = some "oops" ∧
    parseScrollPos "oops" = none ∧
    restoreScrollPos envBad "k" none = Except.error () :=
  ⟨by decide, by decide, rfl⟩

/-- C4 amended: a present-but-malformed stored entry makes restore propagate
the parse failure (throw); the `(0, 0)` fallback applies only when the entry
is absent — here demonstrated on the same key after deleting the malformed
entry. -/
theorem restore_fallback_only_when_absent (env : Env) (k j : String)
    (sel : Option String)
    (hj : env.storage.getItem ("scrollPos:" ++ k) = some j) (hne : j ≠ "")
    (hp : parseScrollPos j = none) :
    restoreScrollPos env k sel = Except.error () ∧
    restoreScrollPos (deleteScrollPos env k) k none =
      Except.ok { deleteScrollPos env k with window := ⟨0, 0⟩ } := by
  constructor
  · unfold restoreScrollPos
    rw [hj]
    simp [hne, hp]
  · unfold restoreScrollPos
    rw [show (deleteScrollPos env k).storage.getItem ("scrollPos:" ++ k) = none from
      Storage.getItem_removeItem_self ..]
    rfl

/-- C4 witness: the amended statement evaluated on `envBad` with its
malformed entry `oops`. -/
theorem restore_fallback_only_when_absent_witness :
    restoreScrollPos envBad "k" none = Except.error () ∧
    restoreScrollPos (deleteScrollPos envBad "k") "k" none =
      Except.ok { deleteScrollPos envBad "k" with window := ⟨0, 0⟩ } :=
  restore_fallback_only_when_absent envBad "k" "oops" none (by decide) (by decide) (by decide)

/-- Environment for the JavaScript-variant save counterexample: no element
matches any selector. -/
def envJs : Env :=
  { storage := Storage.empty
    window := ⟨5, 6⟩
    elements := fun _ => none
    historyKey := "k" }

/-- C5 counterexample: the claim says save never throws when the selector
resolves to no element, under one consistent policy across the sources.  The
JavaScript variant reads `element.scrollLeft` without guarding the
`querySelector` result, so with selector `#nav` matching nothing it throws a
`TypeError`. -/
theorem js_save_unresolved_selector_throws_cx :
    JsVariant.saveScrollPos envJs "k" (some "#nav") = Except.error () := rfl

/-- C5 amended: the two source variants do not share one policy.  The
TypeScript variant's save completes without error and degrades to the
viewport (stores the window offset); the JavaScript variant's save throws on
the same input. -/
theorem save_policy_differs_between_variants (env : Env) (k sel : String)
    (hsel : sel ≠ "") (he : env.elements sel = none) :
    saveScrollPos env k (some sel) = writeScrollEntry env k env.window ∧
    JsVariant.saveScrollPos env k (some sel) = Except.error () := by
  refine ⟨saveScrollPos_noElem hsel he, ?_⟩
  unfold JsVariant.saveScrollPos
  simp [hsel, he]

/-- C5 witness: the amended statement evaluated on `envJs` with selector
`#nav`. -/
theorem save_policy_differs_between_variants_witness :
    saveScrollPos envJs "k" (some "#nav") = writeScrollEntry envJs "k" envJs.window ∧
    JsVariant.saveScrollPos envJs "k" (some "#nav") = Except.error () :=
  save_policy_differs_between_variants envJs "k" "#nav" (by decide) (by decide)

/-- C6: firing the unload signal deletes the stored entries under both the
controller's current key (`st.key`, captured by the handler's closure) and
the host-reported live key (`window.history.state.key`), for every pair of
keys (equal or not), and the hook state — in particular `currentKey` — is
unchanged. -/
theorem unload_clears_both_keys (st : HookState) (env : Env) :
    (onBeforeUnload st env).1 = st ∧
    (onBeforeUnload st env).2.storage.getItem ("scrollPos:" ++ st.key) = none ∧
    (onBeforeUnload st env).2.storage.getItem ("scrollPos:" ++ env.historyKey) = none := by
  refine ⟨rfl, ?_, ?_⟩ <;>
    simp [onBeforeUnload, deleteScrollPos, Storage.getItem, Storage.removeItem]

/-- C7: on `routeChangeComplete` with no delay configured, the handler
synchronously sets the new key, restores for the live history key, and then
deletes that same key's entry: the handler's result is exactly
`deleteScrollPos` applied to the restore's output, so the stored entry for
the new key is already gone when the handler returns. -/
theorem nodelay_complete_restores_then_deletes (st : HookState) (env env2 : Env)
    (sel : Option String)
    (h : restoreScrollPos env env.historyKey sel = Except.ok env2) :
    onRouteChangeComplete sel none st env =
      ({ st with key := env.historyKey }, Except.ok (deleteScrollPos env2 env.historyKey)) ∧
    (deleteScrollPos env2 env.historyKey).storage.getItem
      ("scrollPos:" ++ env.historyKey) = none := by
  have hk : env2.historyKey = env.historyKey := (restoreScrollPos_frame h).2
  constructor
  · simp only [onRouteChangeComplete, h, hk]
  · exact Storage.getItem_removeItem_self ..

/-- Environment for the no-delay witness: a well-formed entry `(0, 42)`
stored under the live key `H`. -/
def envNoDelay : Env :=
  { storage := Storage.empty.setItem ("scrollPos:" ++ "H") (serializeScrollPos ⟨0, 42⟩)
    window := ⟨9, 9⟩
    elements := fun _ => none
    historyKey := "H" }

/-- C7 witness: the no-delay handler evaluated on `envNoDelay`. -/
theorem nodelay_complete_restores_then_deletes_witness :
    onRouteChangeComplete none none ⟨"A", true, []⟩ envNoDelay =
      (⟨"H", true, []⟩, Except.ok (deleteScrollPos { envNoDelay with window := ⟨0, 42⟩ } "H")) ∧
    (deleteScrollPos { envNoDelay with window := ⟨0, 42⟩ } "H").storage.getItem
      ("scrollPos:" ++ "H") = none :=
  nodelay_complete_restores_then_deletes ⟨"A", true, []⟩ envNoDelay
    { envNoDelay with window := ⟨0, 42⟩ } none rfl

/-- C8: save-then-restore round-trip through the serialized entry: for any
offset pair, key, and truthy selector resolving to an element currently at
that offset, `save` then `restore` returns normally and positions that
element at exactly the saved offset — the textual encoding round-trips
exactly. -/
theorem save_restore_round_trip (env : Env) (k sel : String) (p : ScrollPosition)
    (hsel : sel ≠ "") (he : env.elements sel = some p) :
    ∃ env2, restoreScrollPos (saveScrollPos env k (some sel)) k (some sel) =
      Except.ok env2 ∧ env2.elements sel = some p := by
  rw [saveScrollPos_elem hsel he]
  refine ⟨_, restoreScrollPos_of_entry (some sel) (writeScrollEntry_getItem env k p), ?_⟩
  exact applyScroll_elem p hsel he

/-- Environment for the round-trip witness: one element, at `(11, 22)`,
matching the selector `#c`. -/
def envElem : Env :=
  { storage := Storage.empty
    window := ⟨1, 2⟩
    elements := fun s => if s = "#c" then some ⟨11, 22⟩ else none
    historyKey := "H" }

/-- C8 witness: the round-trip evaluated on `envElem` at offset `(11, 22)`. -/
theorem save_restore_round_trip_witness :
    ∃ env2, restoreScrollPos (saveScrollPos envElem "k" (some "#c")) "k" (some "#c") =
      Except.ok env2 ∧ env2.elements "#c" = some ⟨11, 22⟩ :=
  save_restore_round_trip envElem "k" "#c" ⟨11, 22⟩ (by decide) (by decide)

/-- C9: `setItem` overwrites: after `save(k, p1); save(k, p2)` (each save
reading the window offset current at its call), the single entry under `k`'s
derived storage key holds exactly the serialization of `p2`. -/
theorem save_overwrites_entry (env : Env) (k : String) (p1 p2 : ScrollPosition) :
    (saveScrollPos { saveScrollPos { env with window := p1 } k none with window := p2 }
      k none).storage.getItem ("scrollPos:" ++ k) = some (serializeScrollPos p2) :=
  Storage.getItem_setItem_self ..

/-- C10: storage operations only touch the derived key of their argument:
for distinct keys, `delete` and `save` leave the other key's entry (or
absence) unchanged, and a normally-returning `restore` leaves the whole
storage mapping unchanged. -/
theorem storage_ops_frame (env : Env) (k k2 : String) (sel : Option String)
    (h : k2 ≠ k) :
    (deleteScrollPos env k).storage.getItem ("scrollPos:" ++ k2) =
      env.storage.getItem ("scrollPos:" ++ k2) ∧
    (saveScrollPos env k sel).storage.getItem ("scrollPos:" ++ k2) =
      env.storage.getItem ("scrollPos:" ++ k2) ∧
    ∀ env2, restoreScrollPos env k sel = Except.ok env2 → env2.storage = env.storage := by
  have hne : ("scrollPos:" ++ k2) ≠ ("scrollPos:" ++ k) := fun hh => h (scrollPosKey_inj hh)
  refine ⟨Storage.getItem_removeItem_ne _ hne, ?_, fun env2 hr => (restoreScrollPos_frame hr).1⟩
  obtain ⟨p, hp⟩ := saveScrollPos_storage env k sel
  rw [show (saveScrollPos env k sel).storage =
    env.storage.setItem ("scrollPos:" ++ k) (serializeScrollPos p) from hp]
  exact Storage.getItem_setItem_ne _ _ hne

/-- Environment for the frame witness: an unrelated entry stored under
key `b`. -/
def envFrame : Env :=
  { storage := Storage.empty.setItem ("scrollPos:" ++ "b") "v"
    window := ⟨1, 1⟩
    elements := fun _ => none
    historyKey := "a" }

/-- C10 witness: the frame statement evaluated on `envFrame` for keys `a`
and `b`. -/
theorem storage_ops_frame_witness :
    (deleteScrollPos envFrame "a").storage.getItem ("scrollPos:" ++ "b") =
      envFrame.storage.getItem ("scrollPos:" ++ "b") ∧
    (saveScrollPos envFrame "a" none).storage.getItem ("scrollPos:" ++ "b") =
      envFrame.storage.getItem ("scrollPos:" ++ "b") ∧
    ∀ env2, restoreScrollPos envFrame "a" none = Except.ok env2 →
      env2.storage = envFrame.storage :=
  storage_ops_frame envFrame "a" "b" none (by decide)
